import Mathlib

/-!
Verification of the income-tick repository (src/app/components/RichPerson.tsx,
which also contains the home route). JavaScript numbers are modelled as ℚ;
`number | null` as `Option ℚ`. JS falsiness of a `number | null` value
(`!x` true for `null`, `0`, `-0`, `NaN`) is modelled for `null` and `0`.
-/

namespace IncomeTick

/-- TimerState: the persisted state `{income, isRunning, startTime}`
held by `useIncomeTracker` via the three `useLocalStorageState` hooks. -/
structure TimerState where
  income : ℚ
  isRunning : Bool
  startTime : Option ℚ
deriving DecidableEq, Repr

/-- The default state: `income = 0`, `isRunning = false`, `startTime = null`. -/
def initialState : TimerState := ⟨0, false, none⟩

/-- JS truthiness of a `number | null` value: truthy iff non-null and non-zero. -/
def truthyOpt : Option ℚ → Bool
  | none => false
  | some x => decide (x ≠ 0)

/-- The `useEffect` at lines 166-170: `if (income > 0 && startTime) setIsRunning(true)`.
Runs after every state mutation (React effect with deps `[income, startTime]`). -/
def autoFlipEffect (s : TimerState) : TimerState :=
  if 0 < s.income ∧ truthyOpt s.startTime then
    { s with isRunning := true }
  else s

/-- `handleStart` body (lines 172-175), before the effect settles:
`setIsRunning(!isRunning); setStartTime(Date.now())`. -/
def handleStartRaw (s : TimerState) (now : ℚ) : TimerState :=
  ⟨s.income, !s.isRunning, some now⟩

/-- The `start()` operation: the `handleStart` handler followed by the
auto-flip effect running on the next render. -/
def handleStart (s : TimerState) (now : ℚ) : TimerState :=
  autoFlipEffect (handleStartRaw s now)

/-- The `reset()` operation (lines 177-181):
`setIsRunning(false); setStartTime(null); setIncome(0)`, then the effect. -/
def handleReset (_s : TimerState) : TimerState :=
  autoFlipEffect ⟨0, false, none⟩

/-- The `setIncome(value)` operation: stores the value, then the
auto-flip effect runs (deps `[income, startTime]` changed). -/
def setIncome (s : TimerState) (v : ℚ) : TimerState :=
  autoFlipEffect ⟨v, s.isRunning, s.startTime⟩

/-- States reachable from the default state through the operations of
`useIncomeTracker` (start, reset, setIncome) and the auto-flip effect. -/
inductive Reachable : TimerState → Prop
  | init : Reachable initialState
  | start (s : TimerState) (now : ℚ) : Reachable s → Reachable (handleStart s now)
  | reset (s : TimerState) : Reachable s → Reachable (handleReset s)
  | setInc (s : TimerState) (v : ℚ) : Reachable s → Reachable (setIncome s v)
  | flip (s : TimerState) : Reachable s → Reachable (autoFlipEffect s)

/-- Milliseconds in a fixed 365-day year, `365 * 24 * 60 * 60 * 1000`. -/
def millisPerYear : ℚ := 365 * 24 * 60 * 60 * 1000

/-- The accrual computation of `useCurrentIncome` (lines 138-143):
`if (!since) return 0; return (currentTime - since) * (annualIncome / millisPerYear)`.
`!since` is true in JS both for `null` and for `0`. -/
def earnedSince (annualIncome : ℚ) (since : Option ℚ) (currentTime : ℚ) : ℚ :=
  match since with
  | none => 0
  | some t => if t = 0 then 0 else (currentTime - t) * (annualIncome / millisPerYear)

/-- Decimal-place selection of the `formatCurrency` inside `RichPerson` (line 23):
`amount < 1 ? 5 : amount < 100 ? 2 : 2`. Used by the comparison cards. -/
def formatCurrencyDecimals (amount : ℚ) : Nat :=
  if amount < 1 then 5 else if amount < 100 then 2 else 2

/-- Decimal-place selection of `useFormatCurrency` (lines 204-213), used by the
primary ticker: `minimumFractionDigits: 2, maximumFractionDigits: 2` always. -/
def homeFormatCurrencyDecimals (_amount : ℚ) : Nat := 2

/-- A JSON scalar value, as produced by `JSON.parse` on the persisted entries
(the store holds JSON-encoded scalars: numbers, booleans, `null`). -/
inductive JsonValue where
  | num (q : ℚ)
  | bool (b : Bool)
  | null
deriving DecidableEq, Repr

/-- JSON whitespace. -/
def isJsonWs (c : Char) : Bool :=
  c = ' ' ∨ c = '\t' ∨ c = '\n' ∨ c = '\r'

/-- Drop leading JSON whitespace. -/
def dropWs : List Char → List Char
  | [] => []
  | c :: cs => if isJsonWs c then dropWs cs else c :: cs

/-- Consume a run of decimal digits, returning value, digit count, and rest. -/
def parseDigitsAux : List Char → Nat → Nat → Nat × Nat × List Char
  | [], acc, cnt => (acc, cnt, [])
  | c :: cs, acc, cnt =>
    if c.isDigit then parseDigitsAux cs (acc * 10 + (c.toNat - 48)) (cnt + 1)
    else (acc, cnt, c :: cs)

/-- Parse the optional fraction part `.[0-9]+` of a JSON number. -/
def parseFrac : List Char → Option (ℚ × List Char)
  | '.' :: rest =>
    match parseDigitsAux rest 0 0 with
    | (fv, fcnt, cs) =>
      if fcnt = 0 then none else some ((fv : ℚ) / (10 : ℚ) ^ fcnt, cs)
  | cs => some (0, cs)

/-- Parse the optional exponent part `[eE][+-]?[0-9]+` of a JSON number. -/
def parseExp : List Char → Option (ℤ × List Char)
  | c :: rest =>
    if c = 'e' ∨ c = 'E' then
      match rest with
      | '+' :: r =>
        match parseDigitsAux r 0 0 with
        | (ev, ecnt, cs) => if ecnt = 0 then none else some ((ev : ℤ), cs)
      | '-' :: r =>
        match parseDigitsAux r 0 0 with
        | (ev, ecnt, cs) => if ecnt = 0 then none else some (-(ev : ℤ), cs)
      | r =>
        match parseDigitsAux r 0 0 with
        | (ev, ecnt, cs) => if ecnt = 0 then none else some ((ev : ℤ), cs)
    else some (0, c :: rest)
  | [] => some (0, [])

/-- Parse a JSON number `-?[0-9]+(.[0-9]+)?([eE][+-]?[0-9]+)?`. -/
def parseNumber (cs : List Char) : Option (ℚ × List Char) :=
  let p : Bool × List Char :=
    match cs with
    | '-' :: rest => (true, rest)
    | _ => (false, cs)
  match parseDigitsAux p.2 0 0 with
  | (ip, icnt, cs1) =>
    if icnt = 0 then none
    else
      match parseFrac cs1 with
      | none => none
      | some (fv, cs2) =>
        match parseExp cs2 with
        | none => none
        | some (ev, cs3) =>
          let mag : ℚ := ((ip : ℚ) + fv) * (10 : ℚ) ^ ev
          some (if p.1 then -mag else mag, cs3)

/-- `JSON.parse` on the scalar values this store persists (numbers, booleans,
`null`); any other input raises a `SyntaxError`, modelled as `Except.error`. -/
def jsonParse (s : String) : Except String JsonValue :=
  let cs := dropWs s.toList
  let lit : Option (JsonValue × List Char) :=
    match cs with
    | 'n' :: 'u' :: 'l' :: 'l' :: rest => some (JsonValue.null, rest)
    | 't' :: 'r' :: 'u' :: 'e' :: rest => some (JsonValue.bool true, rest)
    | 'f' :: 'a' :: 'l' :: 's' :: 'e' :: rest => some (JsonValue.bool false, rest)
    | other => (parseNumber other).map fun p => (JsonValue.num p.1, p.2)
  match lit with
  | none => Except.error "SyntaxError"
  | some (v, rest) =>
    if dropWs rest = [] then Except.ok v else Except.error "SyntaxError"

/-- Reading one persisted entry, the pattern `stored ? JSON.parse(stored) : dflt`
shared by `useLocalStorageState` (line 115) and `clientLoader` (lines 221, 223):
`null` and the empty string are falsy and fall back to the default; any other
string goes through `JSON.parse`, whose exception propagates. -/
def readPersisted (stored : Option String) (dflt : JsonValue) :
    Except String JsonValue :=
  match stored with
  | none => Except.ok dflt
  | some s => if s = "" then Except.ok dflt else jsonParse s

/-- The data produced by `clientLoader`: `startTime` is `null` when unset and
otherwise `new Date(JSON.parse(raw))` — the `Date` wrapper keeps the parsed
numeric time value, modelled by carrying the parsed scalar. -/
structure LoaderData where
  income : JsonValue
  startTime : Option JsonValue
  isRunning : JsonValue
deriving DecidableEq, Repr

/-- `clientLoader` (lines 215-225): reads the three entries from storage and
falls back per-field when an entry is absent; `JSON.parse` errors propagate. -/
def clientLoader (storage : String → Option String) :
    Except String LoaderData := do
  let inc ← readPersisted (storage "income") (JsonValue.num 0)
  let st ←
    match storage "startTime" with
    | none => Except.ok none
    | some s =>
      if s = "" then Except.ok none
      else (jsonParse s).map fun v => some v
  let ir ← readPersisted (storage "isRunning") (JsonValue.bool false)
  return ⟨inc, st, ir⟩

/-! Helper lemmas about the auto-flip effect. -/

theorem autoFlip_startTime (s : TimerState) :
    (autoFlipEffect s).startTime = s.startTime := by
  unfold autoFlipEffect
  split <;> rfl

theorem autoFlip_income (s : TimerState) :
    (autoFlipEffect s).income = s.income := by
  unfold autoFlipEffect
  split <;> rfl

theorem truthy_ne_none (o : Option ℚ) (h : truthyOpt o = true) : o ≠ none := by
  cases o with
  | none => simp [truthyOpt] at h
  | some x => simp

theorem autoFlip_isRunning_of (s : TimerState)
    (h : (autoFlipEffect s).isRunning = true) :
    s.isRunning = true ∨ s.startTime ≠ none := by
  unfold autoFlipEffect at h
  split at h
  · rename_i hc
    exact Or.inr (truthy_ne_none s.startTime hc.2)
  · exact Or.inl h

/-- Claim C1 counterexample: from the default state (income 0), calling
start() twice in a row leaves isRunning false, not true — `handleStart`
toggles isRunning and the auto-flip effect does not fire at income 0. -/
theorem handleStart_twice_counterexample :
    (handleStart (handleStart initialState 5) 10).isRunning = false := by rfl

/-- Claim C1 (amended): when income is positive and the timestamp is nonzero,
start() results in isRunning = true (toggle plus auto-flip) and resets
startTime to the timestamp of that call, also when already running. -/
theorem handleStart_sets_running (s : TimerState) (now : ℚ)
    (hi : 0 < s.income) (hn : now ≠ 0) :
    handleStart s now = ⟨s.income, true, some now⟩ := by
  unfold handleStart handleStartRaw autoFlipEffect truthyOpt
  simp [hi, hn]

/-- Claim C1 witness: a concrete second start while already running. -/
theorem handleStart_sets_running_witness :
    0 < (⟨3, true, some 1⟩ : TimerState).income ∧ (10 : ℚ) ≠ 0 ∧
      handleStart ⟨3, true, some 1⟩ 10 = ⟨3, true, some 10⟩ :=
  ⟨by norm_num, by norm_num,
    handleStart_sets_running ⟨3, true, some 1⟩ 10 (by norm_num) (by norm_num)⟩

/-- Claim C2 counterexample: at startTime 0 (non-null) the code returns 0,
not the value of the claimed formula (n - s) * (a / millisPerYear). -/
theorem earnedSince_zero_start_counterexample :
    earnedSince millisPerYear (some 0) 5 ≠
      (5 - 0) * (millisPerYear / millisPerYear) := by
  norm_num [earnedSince, millisPerYear]

/-- Claim C2 (amended): the accrual computation returns 0 when startTime is
null and also when it is 0 (JS falsiness); for nonzero startTime t it returns
(n - t) * (a / millisPerYear) with millisPerYear = 365*24*60*60*1000. -/
theorem earnedSince_eval (a t n : ℚ) (ht : t ≠ 0) :
    earnedSince a none n = 0 ∧ earnedSince a (some 0) n = 0 ∧
      earnedSince a (some t) n = (n - t) * (a / millisPerYear) := by
  refine ⟨rfl, by simp [earnedSince], ?_⟩
  simp [earnedSince, ht]

/-- Claim C2 witness: concrete nonzero startTime. -/
theorem earnedSince_eval_witness :
    (1 : ℚ) ≠ 0 ∧ earnedSince 2 (some 1) 3 = (3 - 1) * (2 / millisPerYear) :=
  ⟨by norm_num, (earnedSince_eval 2 1 3 (by norm_num)).2.2⟩

/-- Claim C3: from every state, reset() yields exactly the state
with income 0, isRunning false, startTime null. -/
theorem handleReset_initial (s : TimerState) : handleReset s = initialState := by
  rfl

/-- Claim C4 counterexample: with a malformed persisted income entry,
initialization raises a SyntaxError instead of falling back to defaults. -/
theorem clientLoader_malformed_counterexample :
    clientLoader (fun k => if k = "income" then some "oops" else none) =
      Except.error "SyntaxError" := by rfl

/-- Claim C4 (amended): absent (or empty-string) persisted state surfaces no
error and initialization falls back to the defaults income 0, startTime null,
isRunning false; malformed non-empty entries make JSON.parse throw, so an
error is surfaced rather than a fallback. -/
theorem clientLoader_defaults :
    clientLoader (fun _ => none) =
        Except.ok ⟨JsonValue.num 0, none, JsonValue.bool false⟩ ∧
      clientLoader (fun _ => some "") =
        Except.ok ⟨JsonValue.num 0, none, JsonValue.bool false⟩ := by
  exact ⟨rfl, rfl⟩

/-- Claim C5: the invariant that isRunning implies a non-null startTime holds
in every state reachable from the default state through start, reset,
setIncome and the auto-flip effect. -/
theorem timerState_invariant (s : TimerState) (h : Reachable s)
    (hr : s.isRunning = true) : s.startTime ≠ none := by
  induction h with
  | init => simp [initialState] at hr
  | start s now _ _ =>
    rw [handleStart, autoFlip_startTime]
    simp [handleStartRaw]
  | reset s _ _ =>
    rw [handleReset_initial] at hr
    simp [initialState] at hr
  | setInc s v _ ih =>
    rw [setIncome, autoFlip_startTime]
    rcases autoFlip_isRunning_of _ hr with hrun | hst
    · exact ih hrun
    · exact hst
  | flip s _ ih =>
    rw [autoFlip_startTime]
    rcases autoFlip_isRunning_of _ hr with hrun | hst
    · exact ih hrun
    · exact hst

/-- Claim C5 witness: the state after one start from the default state is
reachable, running, and has a non-null startTime. -/
theorem timerState_invariant_witness :
    (handleStart initialState 5).isRunning = true ∧
      (handleStart initialState 5).startTime ≠ none :=
  ⟨by rfl,
    timerState_invariant (handleStart initialState 5)
      (Reachable.start initialState 5 Reachable.init) (by rfl)⟩

/-- Claim C6 counterexample: with startTime = 0 (non-null but falsy), setting
a positive income does not flip isRunning to true. -/
theorem setIncome_zero_startTime_counterexample :
    (setIncome ⟨0, false, some 0⟩ 5).income = 5 ∧
      (setIncome ⟨0, false, some 0⟩ 5).startTime = some 0 ∧
      (setIncome ⟨0, false, some 0⟩ 5).isRunning = false :=
  ⟨rfl, rfl, rfl⟩

/-- Claim C6 (amended): after setIncome(v) with v above 0, if startTime is set
to a non-null and nonzero (truthy) value, isRunning becomes true. -/
theorem setIncome_autoflip (s : TimerState) (v t : ℚ)
    (hst : s.startTime = some t) (ht : t ≠ 0) (hv : 0 < v) :
    (setIncome s v).isRunning = true := by
  unfold setIncome autoFlipEffect truthyOpt
  simp [hst, ht, hv]

/-- Claim C6 witness: concrete truthy startTime and positive income. -/
theorem setIncome_autoflip_witness :
    (⟨0, false, some 7⟩ : TimerState).startTime = some 7 ∧ (7 : ℚ) ≠ 0 ∧
      0 < (5 : ℚ) ∧ (setIncome ⟨0, false, some 7⟩ 5).isRunning = true :=
  ⟨rfl, by norm_num, by norm_num,
    setIncome_autoflip ⟨0, false, some 7⟩ 5 7 rfl (by norm_num) (by norm_num)⟩

/-- Claim C7: for a fixed annual income a that is at least 0 and a fixed
startTime t, the earned amount is non-decreasing as now increases over
now at least t. -/
theorem earnedSince_monotone (a t n1 n2 : ℚ)
    (ha : 0 ≤ a) (_h1 : t ≤ n1) (h2 : n1 ≤ n2) :
    earnedSince a (some t) n1 ≤ earnedSince a (some t) n2 := by
  by_cases ht : t = 0
  · simp [earnedSince, ht]
  · simp only [earnedSince, if_neg ht]
    have hmpy : (0 : ℚ) ≤ a / millisPerYear :=
      div_nonneg ha (by norm_num [millisPerYear])
    have hsub : n1 - t ≤ n2 - t := by linarith
    exact mul_le_mul_of_nonneg_right hsub hmpy

/-- Claim C7 witness: concrete monotone step. -/
theorem earnedSince_monotone_witness :
    (0 : ℚ) ≤ 1 ∧ (1 : ℚ) ≤ 2 ∧ (2 : ℚ) ≤ 3 ∧
      earnedSince 1 (some 1) 2 ≤ earnedSince 1 (some 1) 3 :=
  ⟨by norm_num, by norm_num, by norm_num,
    earnedSince_monotone 1 1 2 3 (by norm_num) (by norm_num) (by norm_num)⟩

/-- Claim C8: setIncome never modifies startTime, and in the Running state it
changes only the income field (the result is the stored value with isRunning
still true and startTime untouched). -/
theorem setIncome_frame (s : TimerState) (v : ℚ) :
    (setIncome s v).startTime = s.startTime ∧
      (s.isRunning = true → setIncome s v = ⟨v, true, s.startTime⟩) := by
  constructor
  · rw [setIncome, autoFlip_startTime]
  · intro hr
    unfold setIncome autoFlipEffect
    split <;> simp [hr]

/-- Claim C8 witness: concrete running state. -/
theorem setIncome_frame_witness :
    (setIncome ⟨3, true, some 7⟩ 4).startTime = some 7 ∧
      setIncome ⟨3, true, some 7⟩ 4 = ⟨4, true, some 7⟩ :=
  ⟨(setIncome_frame ⟨3, true, some 7⟩ 4).1,
    (setIncome_frame ⟨3, true, some 7⟩ 4).2 rfl⟩

/-- Claim C9 counterexample: the formatter of the primary ticker uses 2 decimal
places even for an amount below 1, where the claim requires 5. -/
theorem homeFormat_small_counterexample :
    (1 : ℚ) / 2 < 1 ∧ homeFormatCurrencyDecimals ((1 : ℚ) / 2) ≠ 5 := by
  norm_num [homeFormatCurrencyDecimals]

/-- Claim C9 (amended): the formatter of the comparison cards selects 5 decimal
places below 1 and 2 otherwise; the formatter of the primary ticker always
selects 2 decimal places, regardless of the amount. -/
theorem formatCurrencyDecimals_spec (a : ℚ) :
    (formatCurrencyDecimals a = if a < 1 then 5 else 2) ∧
      homeFormatCurrencyDecimals a = 2 := by
  refine ⟨?_, rfl⟩
  by_cases h : a < 1 <;> simp [formatCurrencyDecimals, h]

/-- Claim C10: a startTime of 0 (epoch zero) is treated like null by the
accrual computation, which returns 0 for every annual income and every now. -/
theorem earnedSince_epoch_zero (a n : ℚ) : earnedSince a (some 0) n = 0 := by
  simp [earnedSince]

end IncomeTick
